import Mathlib

/-!
Verification of the training orchestration of the two training scripts of this
repository:

* recipes/nested_fnos/darcy/finetune_nested_darcy.py  (below: the darcy script)
* recipes/rnn/navier_stokes_rnn.py                    (below: the rnn script)

The scripts are shallowly embedded: the control flow of each training loop is
translated into a trace of observable events (training steps, epoch logs,
checkpoint writes, validation passes, scheduler advances), the arithmetic of
the validation aggregation and of the learning-rate schedule is translated
into functions over rationals and naturals, and fallible code paths are
translated into Except-valued functions.  Line numbers in the comments refer
to the two Python sources.
-/

/-- Python integer range over naturals: pyRange a b models range(a, b),
the list [a, a+1, ..., b-1] (empty when b is at most a). -/
def pyRange (a b : Nat) : List Nat := List.range' a (b - a)

/-- Observable events of one run of a training loop.  A checkpoint event
carries the epoch tag passed to save_checkpoint; logEpoch marks the
end-of-epoch log emitted by the darcy script; validate marks one full
validation pass; schedStep marks one call to scheduler.step(). -/
inductive Event where
  | trainBatch (epoch : Nat)
  | logEpoch (epoch : Nat)
  | checkpoint (tag : Nat)
  | validate (epoch : Nat)
  | schedStep
  deriving DecidableEq

/-- One epoch of the darcy training loop (TrainModel, lines 139-163): the
training phase iterates all mini-batches and ends with the epoch log
(lines 141-145), then a checkpoint when (epoch+1) % rec_results_freq == 0
(lines 148-149), then a validation pass when (epoch+1) % validation_epochs
== 0 (lines 152-159), then scheduler.step() when (epoch+1) % decay_epochs
== 0 (lines 161-163).  numBatches abstracts len(train_loader). -/
def darcyEpochBody (recFreq valEpochs decayEpochs numBatches epoch : Nat) : List Event :=
  (List.replicate numBatches (Event.trainBatch epoch) ++ [Event.logEpoch epoch])
    ++ (if (epoch + 1) % recFreq = 0 then [Event.checkpoint epoch] else [])
    ++ (if (epoch + 1) % valEpochs = 0 then [Event.validate epoch] else [])
    ++ (if (epoch + 1) % decayEpochs = 0 then [Event.schedStep] else [])

/-- The darcy training loop (TrainModel, lines 139-166): epochs iterate over
range(max(1, loaded_epoch+1), max_epochs) (line 139), and after the range one
final checkpoint tagged max_epochs-1 is written unconditionally (line 166).
Nat subtraction in the final tag agrees with Python whenever 1 <= maxEpochs. -/
def darcyTrace (recFreq valEpochs decayEpochs numBatches loadedEpoch maxEpochs : Nat) :
    List Event :=
  ((pyRange (max 1 (loadedEpoch + 1)) maxEpochs).flatMap
      (darcyEpochBody recFreq valEpochs decayEpochs numBatches))
    ++ [Event.checkpoint (maxEpochs - 1)]

/-- One epoch of the rnn training loop (main, lines 248-279): for every
mini-batch one optimizer update immediately followed by scheduler.step()
(lines 251-259), then an unconditional validation pass (line 270), then a
checkpoint when epoch % 5 == 4 (lines 272-279). -/
def rnnEpochBody (numBatches epoch : Nat) : List Event :=
  ((List.range numBatches).flatMap fun _ => [Event.trainBatch epoch, Event.schedStep])
    ++ [Event.validate epoch]
    ++ (if epoch % 5 = 4 then [Event.checkpoint epoch] else [])

/-- The rnn training loop (main, line 248): epochs iterate over
range(max(1, loaded_epoch+1), 21); nothing is written after the loop. -/
def rnnTrace (numBatches loadedEpoch : Nat) : List Event :=
  (pyRange (max 1 (loadedEpoch + 1)) 21).flatMap (rnnEpochBody numBatches)

/-- Number of scheduler advances (scheduler.step() calls) in a trace. -/
def countSched (l : List Event) : Nat := l.count Event.schedStep

/-- Phase of an event inside one epoch, in the order stated by the spec:
training 0, checkpointing 1, validating 2, decaying 3. -/
def phaseRank : Event → Nat
  | Event.trainBatch _ => 0
  | Event.logEpoch _ => 0
  | Event.checkpoint _ => 1
  | Event.validate _ => 2
  | Event.schedStep => 3

/-- A list of events respects the phase order claimed for an epoch body:
the ranks of its events are nondecreasing. -/
def phasesOrdered (l : List Event) : Prop := (l.map phaseRank).Pairwise (· ≤ ·)

instance (l : List Event) : Decidable (phasesOrdered l) := by
  unfold phasesOrdered; infer_instance

/-- Phase of an event in the order the rnn loop actually follows: training
with interleaved scheduler advances 0, validating 1, checkpointing 2. -/
def rnnActualRank : Event → Nat
  | Event.trainBatch _ => 0
  | Event.logEpoch _ => 0
  | Event.schedStep => 0
  | Event.validate _ => 1
  | Event.checkpoint _ => 2

/-- The rnn ordering property: ranks nondecreasing under rnnActualRank. -/
def rnnPhasesOrdered (l : List Event) : Prop := (l.map rnnActualRank).Pairwise (· ≤ ·)

/-- The learning rate produced by LambdaLR with lr_lambda step =
decay_rate ** step (SetUpInfrastructure, lines 98-100) after a given
number of scheduler advances. -/
def lambdaLR (initialLr decayRate : ℚ) (steps : Nat) : ℚ :=
  initialLr * decayRate ^ steps

/-- The darcy trace of a fresh-start run restricted to the epochs before
epoch E: epochs 1, ..., E-1, the prefix of the training loop already
executed when epoch E begins. -/
def darcyFreshPrefix (r v d nb E : Nat) : List Event :=
  (pyRange 1 E).flatMap (darcyEpochBody r v d nb)

/-- Sample-count-weighted validation accumulation (TrainModel, lines
153-159): total_loss starts at 0 and every batch adds
loss * batch_size / len(valid_set).  A batch is modelled as its scalar
validation error (a rational) together with its sample count. -/
def validationTotal (batches : List (ℚ × Nat)) (setLen : Nat) : ℚ :=
  batches.foldl (fun acc b => acc + b.1 * (b.2 : ℚ) / (setLen : ℚ)) 0

/-- Total number of samples over a list of batches; the DataLoader
partitions the validation set, so len(valid_set) equals this sum. -/
def sumSizes (batches : List (ℚ × Nat)) : Nat := (batches.map Prod.snd).sum

/-- The same accumulation with Python error semantics: every executed batch
performs a float division by len(valid_set), which raises
ZeroDivisionError when len(valid_set) == 0; an empty loader executes no
batch and hence performs no division. -/
def darcyValidationPass (batches : List (ℚ × Nat)) (setLen : Nat) :
    Except String ℚ :=
  batches.foldl
    (fun acc b => acc.bind (fun t =>
      if setLen = 0 then Except.error "ZeroDivisionError"
      else Except.ok (t + b.1 * (b.2 : ℚ) / (setLen : ℚ))))
    (Except.ok 0)

/-- One architecture configuration entry of cfg.arch; its hyperparameter
contents are irrelevant to the construction-order claims and abstracted to
a tag. -/
structure ArchCfg where
  tag : Nat
  deriving DecidableEq

/-- The trainable artifacts SetUpInfrastructure.__init__ creates after the
architecture lookup, in source order (lines 80-107). -/
inductive Artifact where
  | trainingSet
  | validSet
  | trainLoader
  | validLoader
  | gridValidator
  | decoder
  | fnoModel
  | adamOptimizer
  | lrScheduler
  deriving DecidableEq

def darcyInfraArtifacts : List Artifact :=
  [Artifact.trainingSet, Artifact.validSet, Artifact.trainLoader,
   Artifact.validLoader, Artifact.gridValidator, Artifact.decoder,
   Artifact.fnoModel, Artifact.adamOptimizer, Artifact.lrScheduler]

/-- SetUpInfrastructure.__init__ (lines 68-121): line 74 takes the last
character of cfg.model and parses it as an integer (IndexError on an empty
name, ValueError on a non-digit), then line 75 looks up cfg.arch[cfg.model]
(a missing key raises a KeyError); both happen before any trainable state
is created.  The result pairs the artifacts actually created with the
outcome. -/
def setUpInfrastructure (model : String) (arch : List (String × ArchCfg)) :
    List Artifact × Except String ArchCfg :=
  match model.toList.getLast? with
  | none => ([], Except.error "IndexError")
  | some c =>
    if c.isDigit then
      match arch.lookup model with
      | none => ([], Except.error "ConfigKeyError")
      | some mc => (darcyInfraArtifacts, Except.ok mc)
    else ([], Except.error "ValueError")

/-- The trainable artifacts the rnn main creates, in source order
(lines 197-237). -/
inductive RnnArtifact where
  | trainDataset
  | trainDataloader
  | testDataset
  | testDataloader
  | rnnArch
  | adamOptimizer
  | expScheduler
  deriving DecidableEq

/-- rnn main, lines 166-171: input_time_steps is assigned only for the two
valid model types; an invalid type merely prints a message and falls
through. -/
def rnnInputTimeSteps (modelType : String) (timeStepsToPredict : Nat) :
    Option Nat :=
  if modelType = "one2many" then some 1
  else if modelType = "seq2seq" then some timeStepsToPredict
  else none

/-- rnn main after the model-type dispatch: with an invalid model type the
first use of the unassigned input_time_steps (the prepare_data call at
lines 178-185) raises UnboundLocalError, before any dataset, model,
optimizer or scheduler is created; with a valid type all trainable
artifacts are created (lines 197-237). -/
def rnnSetup (modelType : String) : List RnnArtifact × Except String Unit :=
  match rnnInputTimeSteps modelType 16 with
  | none => ([], Except.error "UnboundLocalError")
  | some _ =>
    ([RnnArtifact.trainDataset, RnnArtifact.trainDataloader,
      RnnArtifact.testDataset, RnnArtifact.testDataloader, RnnArtifact.rnnArch,
      RnnArtifact.adamOptimizer, RnnArtifact.expScheduler], Except.ok ())

/-- Operations a forward-evaluation routine may perform on the training
state; a forward carries whether gradient tracking is enabled while it
runs. -/
inductive TOp where
  | forward (gradOn : Bool)
  | setEvalMode
  | zeroGrad
  | backward
  | optStep
  | schedAdvance
  deriving DecidableEq

/-- Trainable state of a level: model parameters, optimizer moments and the
scheduler step counter, plus the module eval-mode flag (which is not
trainable state). -/
structure TrainState where
  params : ℚ
  moments : ℚ
  schedSteps : Nat
  evalMode : Bool

/-- Effect of one operation on the training state; the optimizer update
functions are abstract parameters so that preservation results are not
vacuous. -/
def applyOp (updP updM : ℚ → ℚ → ℚ) (s : TrainState) : TOp → TrainState
  | TOp.forward _ => s
  | TOp.setEvalMode => { s with evalMode := true }
  | TOp.zeroGrad => s
  | TOp.backward => s
  | TOp.optStep =>
      { s with params := updP s.params s.moments, moments := updM s.params s.moments }
  | TOp.schedAdvance => { s with schedSteps := s.schedSteps + 1 }

def runOps (updP updM : ℚ → ℚ → ℚ) (s : TrainState) (ops : List TOp) : TrainState :=
  ops.foldl (applyOp updP updM) s

/-- darcy _forward_eval (lines 116-118): one forward pass wrapped in
StaticCaptureEvaluateNoGrad, an external capability of the modulus library
whose contract is to run the wrapped forward with gradient tracking
disabled. -/
def darcyForwardEvalOps : List TOp := [TOp.forward false]

/-- rnn validation_step (lines 74-84): model.eval() followed by one forward
pass per batch; the call model(invar) at line 80 is not wrapped in any
no_grad context, so it runs with gradient tracking at its default,
enabled. -/
def rnnValidationOps (numBatches : Nat) : List TOp :=
  TOp.setEvalMode :: List.replicate numBatches (TOp.forward true)

def opGradOn : TOp → Bool
  | TOp.forward b => b
  | _ => false

/-- Modelled from the spec: the parent-evaluation wiring of the nested
fine-tuning entry point is missing from the source (EvaluateParent at
lines 169-172 has an empty body and the call at line 194 of
nested_darcy_trainer is not valid Python), so the NestedInferenceBridge is
modelled from the spec contract: normalize the raw input with the parent
normalization stats as (x - mean) / std, run the parent model on the
normalized value, and de-normalize the parent output as y * std + mean
before handing it to the child. -/
def bridgeApply (mean std : ℚ) (parent : ℚ → ℚ) (x : ℚ) : ℚ :=
  parent ((x - mean) / std) * std + mean

abbrev Arr3 := List (List (List ℚ))

abbrev Arr4 := List (List (List (List ℚ)))

/-- numpy slice u[a : a+b] along the leading (time) axis. -/
def sliceTime (a b : Nat) (u : Arr3) : Arr3 := (u.drop a).take b

/-- numpy slice [..., s : s+n] along the trailing (sample) axis. -/
def sliceSamples (s n : Nat) (u : Arr3) : Arr3 :=
  u.map (fun plane => plane.map (fun row => (row.drop s).take n))

/-- Number of samples of a rectangular time-by-space-by-sample array. -/
def sampleCount (u : Arr3) : Nat := ((u.headD []).headD []).length

/-- numpy moveaxis(u, -1, 0): the sample axis becomes the leading axis. -/
def moveaxisLastFront (u : Arr3) : Arr3 :=
  (List.range (sampleCount u)).map
    (fun k => u.map (fun plane => plane.map (fun row => row.getD k 0)))

/-- numpy expand_dims(u, axis=1): insert a singleton channel axis. -/
def expandDims1 (u : Arr3) : Arr4 := u.map (fun block => [block])

/-- Content of an HDF5 file in this pipeline: either the raw dataset with
key u (time by space by sample, the spatial axes collapsed into one) or a
processed file with keys invar and outvar. -/
inductive FileData where
  | raw (u : Arr3)
  | processed (invar outvar : Arr4)

/-- A file system: an association list from paths to file contents. -/
abbrev FileSys := List (String × FileData)

/-- prepare_data (navier_stokes_rnn.py, lines 34-71): if the output file
already exists (line 42) nothing is read or written; otherwise the input
file is opened (FileNotFoundError if absent, KeyError if it holds no u
key), invar is sliced as times [its, its+pts) and samples
[start, start+num), outvar as times [its+pts, its+2*pts) and the same
samples, the sample axis is moved to the front, a channel axis is
inserted, and the output file is written. -/
def prepare_data (fs : FileSys) (inputDataPath outputDataPath : String)
    (inputTimeSteps predictTimeSteps startIdx numSamples : Nat) :
    Except String FileSys :=
  if (fs.lookup outputDataPath).isSome then Except.ok fs
  else
    match fs.lookup inputDataPath with
    | none => Except.error "FileNotFoundError"
    | some (FileData.processed _ _) => Except.error "KeyError"
    | some (FileData.raw u) =>
      let invar := expandDims1 (moveaxisLastFront (sliceSamples startIdx numSamples
        (sliceTime inputTimeSteps predictTimeSteps u)))
      let outvar := expandDims1 (moveaxisLastFront (sliceSamples startIdx numSamples
        (sliceTime (inputTimeSteps + predictTimeSteps) predictTimeSteps u)))
      Except.ok ((outputDataPath, FileData.processed invar outvar) :: fs)

lemma mem_pyRange {a b m : Nat} : m ∈ pyRange a b ↔ a ≤ m ∧ m < b := by
  unfold pyRange
  rw [List.mem_range'_1]
  omega

lemma logEpoch_mem_darcyBody {r v d nb a x : Nat} :
    Event.logEpoch x ∈ darcyEpochBody r v d nb a ↔ x = a := by
  unfold darcyEpochBody
  split_ifs <;> simp [List.mem_append, List.mem_replicate]

lemma validate_mem_rnnBody {nb a x : Nat} :
    Event.validate x ∈ rnnEpochBody nb a ↔ x = a := by
  unfold rnnEpochBody
  split_ifs <;> simp [List.mem_append, List.mem_flatMap]

lemma checkpoint_mem_rnnBody {nb a x : Nat} :
    Event.checkpoint x ∈ rnnEpochBody nb a ↔ x = a ∧ a % 5 = 4 := by
  unfold rnnEpochBody
  split_ifs with h <;> simp [List.mem_append, List.mem_flatMap, h]

lemma logEpoch_mem_darcyTrace {r v d nb loaded M x : Nat} :
    Event.logEpoch x ∈ darcyTrace r v d nb loaded M ↔
      (max 1 (loaded + 1) ≤ x ∧ x < M) := by
  unfold darcyTrace
  rw [List.mem_append, List.mem_flatMap]
  constructor
  · rintro (⟨a, ha, hx⟩ | h)
    · rw [logEpoch_mem_darcyBody] at hx
      subst hx
      exact mem_pyRange.mp ha
    · simp at h
  · intro h
    exact Or.inl ⟨x, mem_pyRange.mpr h, logEpoch_mem_darcyBody.mpr rfl⟩

lemma validate_mem_rnnTrace {nb loaded x : Nat} :
    Event.validate x ∈ rnnTrace nb loaded ↔ (max 1 (loaded + 1) ≤ x ∧ x < 21) := by
  unfold rnnTrace
  rw [List.mem_flatMap]
  constructor
  · rintro ⟨a, ha, hx⟩
    rw [validate_mem_rnnBody] at hx
    subst hx
    exact mem_pyRange.mp ha
  · intro h
    exact ⟨x, mem_pyRange.mpr h, validate_mem_rnnBody.mpr rfl⟩

lemma checkpoint_mem_rnnTrace {nb loaded x : Nat} :
    Event.checkpoint x ∈ rnnTrace nb loaded ↔
      (max 1 (loaded + 1) ≤ x ∧ x < 21 ∧ x % 5 = 4) := by
  unfold rnnTrace
  rw [List.mem_flatMap]
  constructor
  · rintro ⟨a, ha, hx⟩
    rw [checkpoint_mem_rnnBody] at hx
    obtain ⟨h1, h2⟩ := hx
    subst h1
    have hm := mem_pyRange.mp ha
    exact ⟨hm.1, hm.2, h2⟩
  · rintro ⟨h1, h2, h3⟩
    exact ⟨x, mem_pyRange.mpr ⟨h1, h2⟩, checkpoint_mem_rnnBody.mpr ⟨rfl, h3⟩⟩

/-- Claim C1: training epochs execute exactly for epoch indices from
max(1, loaded_epoch+1) up to but excluding max_epochs; the configured
max_epochs is never itself trained, epoch 0 is never trained, and a fresh
start (loaded_epoch = 0) trains epoch 1 as soon as the range is non-empty.
This holds for the darcy loop (epoch marker: the end-of-epoch log emitted
once per trained epoch) and for the rnn loop with its hard-coded
max_epochs = 21 (epoch marker: the unconditional validation pass). -/
theorem c1_training_epoch_range (r v d nb loaded M e : Nat) :
    (Event.logEpoch e ∈ darcyTrace r v d nb loaded M ↔
        (max 1 (loaded + 1) ≤ e ∧ e < M))
    ∧ Event.logEpoch M ∉ darcyTrace r v d nb loaded M
    ∧ Event.logEpoch 0 ∉ darcyTrace r v d nb loaded M
    ∧ (Event.validate e ∈ rnnTrace nb loaded ↔ (max 1 (loaded + 1) ≤ e ∧ e < 21))
    ∧ (loaded = 0 → (Event.logEpoch 1 ∈ darcyTrace r v d nb loaded M ↔ 1 < M)) := by
  refine ⟨logEpoch_mem_darcyTrace, ?_, ?_, validate_mem_rnnTrace, ?_⟩
  · rw [logEpoch_mem_darcyTrace]
    omega
  · rw [logEpoch_mem_darcyTrace]
    omega
  · intro h
    subst h
    rw [logEpoch_mem_darcyTrace]
    omega

/-- Witness for c1_training_epoch_range: a fresh start with max_epochs = 3
trains epoch 1. -/
theorem c1_training_epoch_range_witness :
    (0 : Nat) = 0 ∧ Event.logEpoch 1 ∈ darcyTrace 1 1 1 1 0 3 :=
  ⟨rfl, ((c1_training_epoch_range 1 1 1 1 0 3 1).2.2.2.2 rfl).mpr (by decide)⟩

/-- Claim C3 (amended): the darcy loop always writes one final checkpoint
after the epoch range, unconditionally, and for 1 <= max_epochs it is tagged
max_epochs - 1; the rnn loop writes checkpoints only inside the loop at
epochs with epoch % 5 == 4, and never writes a checkpoint tagged
20 = max_epochs - 1. -/
theorem c3_final_checkpoint (r v d nb loaded M e : Nat) :
    (∃ t, (darcyTrace r v d nb loaded M).getLast? = some (Event.checkpoint t))
    ∧ (1 ≤ M → (darcyTrace r v d nb loaded M).getLast? =
        some (Event.checkpoint (M - 1)))
    ∧ (Event.checkpoint e ∈ rnnTrace nb loaded → e % 5 = 4)
    ∧ Event.checkpoint 20 ∉ rnnTrace nb loaded := by
  refine ⟨⟨M - 1, ?_⟩, fun _ => ?_, fun h => (checkpoint_mem_rnnTrace.mp h).2.2, ?_⟩
  · unfold darcyTrace
    exact List.getLast?_concat _
  · unfold darcyTrace
    exact List.getLast?_concat _
  · rw [checkpoint_mem_rnnTrace]
    omega

/-- Witness for c3_final_checkpoint: a darcy run with max_epochs = 7 ends
with a checkpoint tagged 6. -/
theorem c3_final_checkpoint_witness :
    (1 : Nat) ≤ 7 ∧ (darcyTrace 3 2 5 1 0 7).getLast? = some (Event.checkpoint 6) :=
  ⟨by decide, (c3_final_checkpoint 3 2 5 1 0 7 0).2.1 (by decide)⟩

/-- Counterexample to claim C3 as stated: in a full rnn run (fresh start,
one batch per epoch, max_epochs hard-coded to 21) no checkpoint tagged
max_epochs - 1 = 20 is ever written, and the run ends with the epoch-20
validation pass rather than with a final checkpoint. -/
theorem c3_counterexample :
    Event.checkpoint 20 ∉ rnnTrace 1 0
    ∧ (rnnTrace 1 0).getLast? = some (Event.validate 20) := by
  decide

lemma pairwise_le_of_forall_zero_append (l1 l2 : List Nat)
    (h1 : ∀ x ∈ l1, x = 0) (h2 : l2.Pairwise (· ≤ ·)) :
    (l1 ++ l2).Pairwise (· ≤ ·) := by
  induction l1 with
  | nil => simpa
  | cons a t ih =>
    rw [List.cons_append, List.pairwise_cons]
    constructor
    · intro b _
      have ha : a = 0 := h1 a (by simp)
      omega
    · exact ih (fun x hx => h1 x (by simp [hx]))

lemma darcyBody_phasesOrdered (r v d nb e : Nat) :
    phasesOrdered (darcyEpochBody r v d nb e) := by
  unfold phasesOrdered darcyEpochBody
  rw [List.append_assoc, List.append_assoc, List.append_assoc, List.map_append]
  apply pairwise_le_of_forall_zero_append
  · intro x hx
    rcases List.mem_map.mp hx with ⟨ev, hev, rfl⟩
    rw [List.eq_of_mem_replicate hev]
    rfl
  · split_ifs <;> simp [phaseRank]

lemma rnnBody_phasesOrdered (nb e : Nat) :
    rnnPhasesOrdered (rnnEpochBody nb e) := by
  unfold rnnPhasesOrdered rnnEpochBody
  rw [List.append_assoc, List.map_append]
  apply pairwise_le_of_forall_zero_append
  · intro x hx
    rcases List.mem_map.mp hx with ⟨ev, hev, rfl⟩
    rcases List.mem_flatMap.mp hev with ⟨a, -, hev2⟩
    rcases List.mem_cons.mp hev2 with h | h
    · rw [h]
      rfl
    · rw [List.mem_singleton.mp h]
      rfl
  · split_ifs <;> simp [rnnActualRank]

lemma checkpoint_mem_darcyBody {r v d nb a x : Nat} :
    Event.checkpoint x ∈ darcyEpochBody r v d nb a ↔ (x = a ∧ (a + 1) % r = 0) := by
  unfold darcyEpochBody
  split_ifs <;> simp_all [List.mem_append, List.mem_replicate]

lemma validate_mem_darcyBody {r v d nb a x : Nat} :
    Event.validate x ∈ darcyEpochBody r v d nb a ↔ (x = a ∧ (a + 1) % v = 0) := by
  unfold darcyEpochBody
  split_ifs <;> simp_all [List.mem_append, List.mem_replicate]

lemma schedStep_mem_darcyBody {r v d nb a : Nat} :
    Event.schedStep ∈ darcyEpochBody r v d nb a ↔ (a + 1) % d = 0 := by
  unfold darcyEpochBody
  split_ifs <;> simp_all [List.mem_append, List.mem_replicate]

/-- Claim C6 (amended): in the darcy loop every epoch body follows the
strict order Training, then optional Checkpointing, then optional
Validating, then optional Decaying, each phase present exactly on its
cadence; in the rnn loop each epoch instead follows Training with a
scheduler advance after every mini-batch, then an unconditional Validating,
then optional Checkpointing. -/
theorem c6_phase_order (r v d nb e : Nat) :
    phasesOrdered (darcyEpochBody r v d nb e)
    ∧ (Event.checkpoint e ∈ darcyEpochBody r v d nb e ↔ (e + 1) % r = 0)
    ∧ (Event.validate e ∈ darcyEpochBody r v d nb e ↔ (e + 1) % v = 0)
    ∧ (Event.schedStep ∈ darcyEpochBody r v d nb e ↔ (e + 1) % d = 0)
    ∧ rnnPhasesOrdered (rnnEpochBody nb e) := by
  refine ⟨darcyBody_phasesOrdered r v d nb e, ?_, ?_,
    schedStep_mem_darcyBody, rnnBody_phasesOrdered nb e⟩
  · rw [checkpoint_mem_darcyBody]
    omega
  · rw [validate_mem_darcyBody]
    omega

/-- Counterexample to claim C6 as stated: in the rnn loop at epoch 4 with
one batch, a scheduler advance (Decaying) occurs before validation, and the
validation pass (Validating) occurs before the checkpoint write
(Checkpointing), violating the claimed order Training, Checkpointing,
Validating, Decaying. -/
theorem c6_counterexample :
    rnnEpochBody 1 4 =
      [Event.trainBatch 4, Event.schedStep, Event.validate 4, Event.checkpoint 4]
    ∧ ¬ phasesOrdered (rnnEpochBody 1 4) := by
  exact ⟨rfl, by decide⟩

lemma countSched_darcyBody (r v d nb e : Nat) :
    countSched (darcyEpochBody r v d nb e) = if (e + 1) % d = 0 then 1 else 0 := by
  unfold countSched darcyEpochBody
  split_ifs <;>
    simp [List.count_append, List.count_replicate, List.count_singleton, beq_iff_eq]

lemma countSched_range' (r v d nb : Nat) (hd : 2 ≤ d) :
    ∀ n, countSched ((List.range' 1 n).flatMap (darcyEpochBody r v d nb)) =
      (n + 1) / d := by
  intro n
  induction n with
  | zero =>
    have h1 : (1 : Nat) / d = 0 := Nat.div_eq_of_lt (by omega)
    simpa [countSched] using h1.symm
  | succ n ih =>
    rw [List.range'_concat, List.flatMap_append]
    have he : 1 + 1 * n = n + 1 := by omega
    rw [he]
    unfold countSched at ih ⊢
    rw [List.count_append, ih]
    simp only [List.flatMap_cons, List.flatMap_nil, List.append_nil]
    have hb := countSched_darcyBody r v d nb (n + 1)
    unfold countSched at hb
    rw [hb]
    conv_rhs => rw [Nat.succ_div]
    by_cases hc : (n + 1 + 1) % d = 0
    · rw [if_pos hc, if_pos (Nat.dvd_iff_mod_eq_zero.mpr hc)]
    · rw [if_neg hc, if_neg (fun hdvd => hc (Nat.dvd_iff_mod_eq_zero.mp hdvd))]

lemma countSched_darcyFreshPrefix (r v d nb E : Nat) (hd : 2 ≤ d) :
    countSched (darcyFreshPrefix r v d nb E) = E / d := by
  unfold darcyFreshPrefix pyRange
  cases E with
  | zero => simp [countSched]
  | succ n => simpa using countSched_range' r v d nb hd n

lemma darcyFreshPrefix_isPrefix (r v d nb E M : Nat) (h1 : 1 ≤ E) (h2 : E ≤ M) :
    ∃ rest, darcyTrace r v d nb 0 M = darcyFreshPrefix r v d nb E ++ rest := by
  refine ⟨(pyRange E M).flatMap (darcyEpochBody r v d nb)
    ++ [Event.checkpoint (M - 1)], ?_⟩
  unfold darcyTrace darcyFreshPrefix pyRange
  have hmax : max 1 (0 + 1) = 1 := by omega
  rw [hmax, ← List.append_assoc, ← List.flatMap_append]
  have hs : 1 + 1 * (E - 1) = E := by omega
  have hn : (M - E) + (E - 1) = M - 1 := by omega
  have key : List.range' 1 (E - 1) ++ List.range' E (M - E) = List.range' 1 (M - 1) := by
    have h := List.range'_append 1 (E - 1) (M - E) 1
    rw [hs, hn] at h
    exact h
  rw [key]

/-- Claim C4 (amended): in the darcy loop the scheduler step counter is
advanced exactly once in an epoch when (epoch+1) % decay_epochs == 0 and
never otherwise; on a fresh start with decay_epochs >= 2, the prefix of
the loop executed before epoch E contains exactly E / decay_epochs
advances (so the count of advances never exceeds E / decay_epochs), and
the learning rate during epoch E equals
initial_lr * decay_rate ^ (E / decay_epochs).  In the rnn loop the
scheduler is instead advanced once per mini-batch. -/
theorem c4_decay_cadence (r v d nb E M : Nat) (initialLr decayRate : ℚ)
    (hd : 2 ≤ d) :
    (∀ e, countSched (darcyEpochBody r v d nb e) = if (e + 1) % d = 0 then 1 else 0)
    ∧ countSched (darcyFreshPrefix r v d nb E) = E / d
    ∧ lambdaLR initialLr decayRate (countSched (darcyFreshPrefix r v d nb E)) =
        initialLr * decayRate ^ (E / d)
    ∧ (1 ≤ E → E ≤ M →
        ∃ rest, darcyTrace r v d nb 0 M = darcyFreshPrefix r v d nb E ++ rest) := by
  refine ⟨countSched_darcyBody r v d nb, countSched_darcyFreshPrefix r v d nb E hd,
    ?_, darcyFreshPrefix_isPrefix r v d nb E M⟩
  rw [countSched_darcyFreshPrefix r v d nb E hd]
  rfl

/-- Witness for c4_decay_cadence at the cadence example of the spec:
decay_epochs = 5, twelve completed epochs (the prefix before epoch 13)
give exactly floor(12 / 5) = 2 scheduler advances. -/
theorem c4_decay_cadence_witness :
    (2 : Nat) ≤ 5 ∧ countSched (darcyFreshPrefix 1 1 5 1 13) = 2 := by
  refine ⟨by decide, ?_⟩
  rw [(c4_decay_cadence 1 1 5 1 13 14 1 1 (by decide)).2.1]

/-- Counterexample to claim C4 as stated: one rnn epoch with two
mini-batches advances the scheduler twice (scheduler.step() is called in
the batch loop, line 259), so the counter is advanced outside the claimed
(epoch+1) % decay_period cadence; moreover, in the darcy loop with
decay_period = 1 the claimed count epoch // decay_period fails at epoch 1,
where no advance has yet occurred but 1 // 1 = 1. -/
theorem c4_counterexample :
    countSched (rnnEpochBody 2 1) = 2
    ∧ ¬ (countSched (rnnEpochBody 2 1) ≤ 1)
    ∧ countSched (darcyFreshPrefix 1 1 1 1 1) = 0
    ∧ (1 : Nat) / 1 = 1 := by
  decide

lemma foldl_add_eq (f : ℚ × Nat → ℚ) :
    ∀ (bs : List (ℚ × Nat)) (a : ℚ),
      bs.foldl (fun acc b => acc + f b) a = a + (bs.map f).sum := by
  intro bs
  induction bs with
  | nil =>
    intro a
    simp
  | cons b t ih =>
    intro a
    rw [List.foldl_cons, ih, List.map_cons, List.sum_cons]
    ring

lemma sum_map_div (f : ℚ × Nat → ℚ) (c : ℚ) :
    ∀ bs : List (ℚ × Nat),
      (bs.map (fun b => f b / c)).sum = (bs.map f).sum / c := by
  intro bs
  induction bs with
  | nil => simp
  | cons b t ih =>
    rw [List.map_cons, List.sum_cons, ih, List.map_cons, List.sum_cons, add_div]

lemma cast_sumSizes (bs : List (ℚ × Nat)) :
    ((sumSizes bs : Nat) : ℚ) = (bs.map (fun b => ((b.2 : Nat) : ℚ))).sum := by
  induction bs with
  | nil => simp [sumSizes]
  | cons b t ih =>
    simp only [sumSizes, List.map_cons, List.sum_cons] at ih ⊢
    push_cast
    rw [← ih]
    push_cast
    ring

/-- Claim C2: for every non-empty validation pass whose batches partition
the validation set, the aggregate error equals the sample-count-weighted
average, i.e. the sum over batches of batch_error * batch_size divided by
the total sample count, and the per-batch weights batch_size / total sum
to 1. -/
theorem c2_validation_weighted_average (bs : List (ℚ × Nat))
    (h : sumSizes bs ≠ 0) :
    validationTotal bs (sumSizes bs) =
        (bs.map (fun b => b.1 * (b.2 : ℚ))).sum / ((sumSizes bs : Nat) : ℚ)
    ∧ (bs.map (fun b => ((b.2 : Nat) : ℚ) / ((sumSizes bs : Nat) : ℚ))).sum = 1 := by
  constructor
  · unfold validationTotal
    rw [foldl_add_eq (fun b => b.1 * (b.2 : ℚ) / ((sumSizes bs : Nat) : ℚ)) bs 0]
    rw [zero_add, sum_map_div]
  · rw [sum_map_div (fun b => ((b.2 : Nat) : ℚ)) _ bs, ← cast_sumSizes bs]
    apply div_self
    exact_mod_cast h

/-- Witness for c2_validation_weighted_average at the spec example: batch
sizes 3, 3, 4 with errors 1/10, 2/10, 3/10 over a 10-sample set give
aggregate error 21/100 = 0.21, and the weights sum to 1. -/
theorem c2_validation_weighted_average_witness :
    sumSizes [((1 : ℚ)/10, 3), (2/10, 3), (3/10, 4)] ≠ 0
    ∧ validationTotal [((1 : ℚ)/10, 3), (2/10, 3), (3/10, 4)] 10 = 21/100
    ∧ ([((1 : ℚ)/10, 3), (2/10, 3), (3/10, 4)].map
        (fun b => ((b.2 : Nat) : ℚ) /
          ((sumSizes [((1 : ℚ)/10, 3), (2/10, 3), (3/10, 4)] : Nat) : ℚ))).sum = 1 :=
  ⟨by decide,
    by
      unfold validationTotal
      simp only [List.foldl_cons, List.foldl_nil]
      norm_num,
    (c2_validation_weighted_average [((1 : ℚ)/10, 3), (2/10, 3), (3/10, 4)]
      (by decide)).2⟩

lemma validationPass_error_absorb (setLen : Nat) (m : String) :
    ∀ bs : List (ℚ × Nat),
      bs.foldl (fun acc b => acc.bind (fun t =>
        if setLen = 0 then Except.error "ZeroDivisionError"
        else Except.ok (t + b.1 * (b.2 : ℚ) / (setLen : ℚ)))) (Except.error m) =
      Except.error m := by
  intro bs
  induction bs with
  | nil => rfl
  | cons b t ih => exact ih

/-- Claim C5 (amended): a validation pass over an empty validation
DataSource raises nothing and silently yields aggregate error 0, because
the batch loop body, and with it the division by len(valid_set), never
executes; a ZeroDivisionError occurs only if some batch is processed
while len(valid_set) == 0. -/
theorem c5_empty_validation_silent (setLen : Nat) (b : ℚ × Nat)
    (bs : List (ℚ × Nat)) :
    darcyValidationPass [] setLen = Except.ok 0
    ∧ darcyValidationPass (b :: bs) 0 = Except.error "ZeroDivisionError" := by
  constructor
  · rfl
  · unfold darcyValidationPass
    rw [List.foldl_cons]
    exact validationPass_error_absorb 0 "ZeroDivisionError" bs

/-- Counterexample to claim C5 as stated: over an empty validation
DataSource (no batches, len(valid_set) = 0) the darcy validation pass
raises no error at all; it silently reports aggregate error 0, so no
ConfigurationError is signalled. -/
theorem c5_counterexample :
    darcyValidationPass [] 0 = Except.ok 0
    ∧ ¬ (∃ msg, darcyValidationPass [] 0 = Except.error msg) := by
  constructor
  · rfl
  · rintro ⟨msg, hmsg⟩
    rw [show darcyValidationPass [] 0 = Except.ok 0 from rfl] at hmsg
    cases hmsg

/-- Claim C7: constructing a level training unit with a level selection for
which no architecture configuration exists fails with an error raised
before any trainable state (datasets, loaders, model, optimizer,
scheduler) is created: the darcy constructor fails at the cfg.arch lookup
with an empty artifact list, and the rnn script with an invalid model type
fails at the first use of the unassigned input_time_steps, also with an
empty artifact list. -/
theorem c7_missing_arch_aborts (model mt : String)
    (arch : List (String × ArchCfg))
    (h1 : arch.lookup model = none) (h2 : rnnInputTimeSteps mt 16 = none) :
    ((setUpInfrastructure model arch).1 = []
      ∧ ∃ msg, (setUpInfrastructure model arch).2 = Except.error msg)
    ∧ rnnSetup mt = ([], Except.error "UnboundLocalError") := by
  constructor
  · unfold setUpInfrastructure
    split
    · exact ⟨rfl, ⟨"IndexError", rfl⟩⟩
    · split_ifs
      · rw [h1]
        exact ⟨rfl, ⟨"ConfigKeyError", rfl⟩⟩
      · exact ⟨rfl, ⟨"ValueError", rfl⟩⟩
  · unfold rnnSetup
    rw [h2]

/-- Witness for c7_missing_arch_aborts: selecting model fno2 against an
architecture table holding only fno0 and fno1, and the invalid rnn model
type one2one. -/
theorem c7_missing_arch_aborts_witness :
    List.lookup "fno2" [("fno0", ArchCfg.mk 0), ("fno1", ArchCfg.mk 1)] = none
    ∧ rnnInputTimeSteps "one2one" 16 = none
    ∧ (setUpInfrastructure "fno2" [("fno0", ArchCfg.mk 0), ("fno1", ArchCfg.mk 1)]).1 = [] :=
  ⟨rfl, rfl,
    (c7_missing_arch_aborts "fno2" "one2one"
      [("fno0", ArchCfg.mk 0), ("fno1", ArchCfg.mk 1)] rfl rfl).1.1⟩

lemma runOps_replicate_forward (updP updM : ℚ → ℚ → ℚ) (g : Bool) :
    ∀ (n : Nat) (s : TrainState),
      runOps updP updM s (List.replicate n (TOp.forward g)) = s := by
  intro n
  induction n with
  | zero =>
    intro s
    rfl
  | succ m ih =>
    intro s
    rw [List.replicate_succ]
    exact ih s

/-- Claim C8 (amended): the darcy evaluation forward runs with gradient
tracking disabled and leaves all trainable state (model parameters,
optimizer moments, scheduler step count) unchanged; the rnn
validation_step also leaves all trainable state unchanged (it performs no
optimizer or scheduler step, it only toggles the module eval-mode flag),
but its forward passes run with gradient tracking enabled. -/
theorem c8_eval_frame (updP updM : ℚ → ℚ → ℚ) (s : TrainState) (nb : Nat) :
    runOps updP updM s darcyForwardEvalOps = s
    ∧ darcyForwardEvalOps.all (fun op => !(opGradOn op)) = true
    ∧ (runOps updP updM s (rnnValidationOps nb)).params = s.params
    ∧ (runOps updP updM s (rnnValidationOps nb)).moments = s.moments
    ∧ (runOps updP updM s (rnnValidationOps nb)).schedSteps = s.schedSteps := by
  have h1 : runOps updP updM s (rnnValidationOps nb)
      = runOps updP updM { s with evalMode := true }
          (List.replicate nb (TOp.forward true)) := rfl
  have hrnn : runOps updP updM s (rnnValidationOps nb) = { s with evalMode := true } := by
    rw [h1, runOps_replicate_forward]
  exact ⟨rfl, rfl, by rw [hrnn], by rw [hrnn], by rw [hrnn]⟩

/-- Counterexample to claim C8 as stated: the rnn validation_step runs its
forward pass with gradient tracking enabled (model(invar) at line 80 is
not under torch.no_grad()), so with one batch its operation list contains
a gradient-tracking forward and no gradient-free one. -/
theorem c8_counterexample :
    rnnValidationOps 1 = [TOp.setEvalMode, TOp.forward true]
    ∧ TOp.forward true ∈ rnnValidationOps 1
    ∧ TOp.forward false ∉ rnnValidationOps 1 := by
  refine ⟨rfl, ?_, ?_⟩ <;> decide

/-- Claim C9 (spec-modelled): with normalization stats mean 1.0 and std 2.0
and an identity parent model, the bridge composition normalize, infer,
de-normalize is the identity on physical-unit values. -/
theorem c9_bridge_roundtrip (x : ℚ) : bridgeApply 1 2 id x = x := by
  unfold bridgeApply
  simp only [id]
  ring

lemma prepare_data_creates_output {fs fs2 : FileSys} {inP outP : String}
    {a b c d : Nat}
    (h : prepare_data fs inP outP a b c d = Except.ok fs2) :
    (fs2.lookup outP).isSome = true := by
  unfold prepare_data at h
  by_cases hout : (fs.lookup outP).isSome = true
  · rw [if_pos hout] at h
    cases h
    exact hout
  · rw [if_neg hout] at h
    cases hin : fs.lookup inP with
    | none =>
      rw [hin] at h
      exact Except.noConfusion h
    | some fd =>
      rw [hin] at h
      cases fd with
      | processed iv ov => exact Except.noConfusion h
      | raw u =>
        cases h
        simp [List.lookup]

/-- Claim C10: when the output file already exists, prepare_data returns
without reading the input file or writing anything, whatever the slicing
parameters (even a missing input file raises no error); consequently,
after any successful prepare_data call a second call with the same output
path, any input path and any parameters is a no-op, leaving the
previously written file and the whole file system unchanged. -/
theorem c10_prepare_data_idempotent (fs fs2 : FileSys) (inP inP2 outP : String)
    (a b c d a2 b2 c2 d2 : Nat) :
    ((fs.lookup outP).isSome = true →
      prepare_data fs inP outP a b c d = Except.ok fs)
    ∧ (prepare_data fs inP outP a b c d = Except.ok fs2 →
      prepare_data fs2 inP2 outP a2 b2 c2 d2 = Except.ok fs2) := by
  constructor
  · intro hout
    unfold prepare_data
    rw [if_pos hout]
  · intro h
    have hout := prepare_data_creates_output h
    unfold prepare_data
    rw [if_pos hout]

/-- Witness for c10_prepare_data_idempotent: a file system already holding
the output file is returned unchanged. -/
theorem c10_prepare_data_idempotent_witness :
    ((([("out.hdf5", FileData.processed [] [])] : FileSys).lookup
        "out.hdf5").isSome = true)
    ∧ prepare_data [("out.hdf5", FileData.processed [] [])] "in.hdf5" "out.hdf5"
        1 16 0 1000 = Except.ok [("out.hdf5", FileData.processed [] [])] :=
  ⟨rfl,
    (c10_prepare_data_idempotent [("out.hdf5", FileData.processed [] [])]
      [] "in.hdf5" "x" "out.hdf5" 1 16 0 1000 0 0 0 0).1 rfl⟩
